import Mathlib

/-!
Verification of the resume-generator workflow pipeline.

This file shallowly embeds the workflow state machine of the repository
(`src/resume_generator`): the data schemas (`models/schemas.py`), the shared
`WorkflowState` record (`workflows/state.py`), the four stage agents wired into
the cover-letter workflow (`agents/profile_extractor.py`, `agents/job_search.py`,
`agents/skills_matcher.py`, `agents/cover_letter_generator.py`), the linear
orchestrator graph (`workflows/graph.py`), and the deterministic sub-algorithms
(match-percentage scoring, tailoring notes, skills-section assembly, date
parsing).

Modelling conventions:
- Python `float` scores become `ℚ`; `str` becomes `String`; optional fields
  become `Option`.
- The LLM capability and the external job-scraping capability are opaque
  external collaborators; each stage takes its capability outcomes as an
  explicit `Oracles` argument.  An outcome `Except.error e` models the Python
  call raising an exception with message `e`.
- Python truthiness checks (`if not x:`) are embedded explicitly per type
  (empty string / `None` / empty list / zero are falsy).
- Stage functions are total; a raised-and-caught exception is the `.error`
  branch of the corresponding oracle outcome.
-/

namespace ResumeGen

/-- schemas.py `ContactInfo`. -/
structure ContactInfo where
  email : String
  phone : Option String := none
  linkedin : Option String := none
  github : Option String := none
  portfolio : Option String := none
  location : Option String := none
deriving DecidableEq, Repr

/-- A calendar date as Python `datetime.date` holds it (year 1..9999). -/
structure PDate where
  year : Nat
  month : Nat
  day : Nat
deriving DecidableEq, Repr

/-- schemas.py `Education`. -/
structure Education where
  institution : String
  degree : String
  field_of_study : Option String := none
  graduation_date : Option PDate := none
  gpa : Option ℚ := none
  relevant_coursework : List String := []
deriving DecidableEq, Repr

/-- schemas.py `Experience`. -/
structure Experience where
  company : String
  position : String
  start_date : Option PDate := none
  end_date : Option PDate := none
  description : String
  key_achievements : List String := []
  technologies_used : List String := []
deriving DecidableEq, Repr

/-- schemas.py `Project`. -/
structure Project where
  name : String
  description : String
  technologies_used : List String := []
  url : Option String := none
  achievements : List String := []
deriving DecidableEq, Repr

/-- schemas.py `Certification`. -/
structure Certification where
  name : String
  issuer : String
  issue_date : Option PDate := none
  expiry_date : Option PDate := none
  credential_url : Option String := none
deriving DecidableEq, Repr

/-- schemas.py `UserProfile`. -/
structure UserProfile where
  full_name : String
  contact_info : ContactInfo
  professional_summary : Option String := none
  skills : List String := []
  education : List Education := []
  experience : List Experience := []
  projects : List Project := []
  certifications : List Certification := []
  languages : List String := []
deriving DecidableEq, Repr

/-- schemas.py `JobRequirement`. -/
structure JobRequirement where
  category : String
  skill_or_requirement : String
  importance_weight : ℚ := 1
deriving DecidableEq, Repr

/-- schemas.py `JobDescription`. -/
structure JobDescription where
  title : String
  company : String
  location : Option String := none
  job_type : Option String := none
  salary_range : Option String := none
  description : String
  responsibilities : List String := []
  requirements : List JobRequirement := []
  preferred_qualifications : List String := []
  company_culture : Option String := none
  benefits : List String := []
deriving DecidableEq, Repr

/-- schemas.py `SkillMatch`.  The pydantic bound `0 ≤ match_score ≤ 1` is a
construction-time validation in the source; here it appears as a hypothesis
where a theorem needs it. -/
structure SkillMatch where
  skill : String
  user_has_skill : Bool
  proficiency_level : Option String := none
  match_score : ℚ
  evidence : List String := []
deriving DecidableEq, Repr

/-- schemas.py `ResumeSection`. -/
structure ResumeSection where
  section_name : String
  content : String
  priority : Int := 1
deriving DecidableEq, Repr

/-- schemas.py `JobListing`. -/
structure JobListing where
  title : String
  company : String
  location : Option String := none
  description : Option String := none
  job_url : Option String := none
  date_posted : Option String := none
  job_type : Option String := none
  salary : Option String := none
  is_remote : Bool := false
deriving DecidableEq, Repr

/-- schemas.py `JobMatches`. -/
structure JobMatches where
  search_location : String
  search_keywords : List String := []
  is_remote_search : Bool := false
  jobs : List JobListing := []
  total_results : Int := 0
deriving DecidableEq, Repr

/-- schemas.py `GeneratedResume`. -/
structure GeneratedResume where
  user_profile : UserProfile
  job_description : JobDescription
  skill_matches : List SkillMatch
  customized_summary : String
  sections : List ResumeSection
  tailoring_notes : List String := []
  match_percentage : ℚ
deriving DecidableEq, Repr

/-- schemas.py `GeneratedCoverLetter`. -/
structure GeneratedCoverLetter where
  user_profile : UserProfile
  job_description : JobDescription
  skill_matches : List SkillMatch
  cover_letter_content : String
  tailoring_notes : List String := []
  match_percentage : ℚ
deriving DecidableEq, Repr

/-- workflows/state.py `WorkflowState`.  The `job_skill_matches` entries are
`{"job_listing": ..., "skill_matches": ...}` dicts in the source, embedded as
pairs. -/
structure WorkflowState where
  user_profile_raw : Option String := none
  user_profile_json : Option String := none
  job_description_raw : Option String := none
  user_profile : Option UserProfile := none
  job_description : Option JobDescription := none
  job_matches : Option JobMatches := none
  job_skill_matches : Option (List (JobListing × List SkillMatch)) := none
  skill_matches : Option (List SkillMatch) := none
  generated_resume : Option GeneratedResume := none
  generated_resumes : Option (List GeneratedResume) := none
  generated_cover_letter : Option GeneratedCoverLetter := none
  generated_cover_letters : Option (List GeneratedCoverLetter) := none
  errors : List String := []
  step_completed : List String := []
  job_search_location : Option String := none
  job_sites : Option (List String) := none
  max_results : Option Int := none
  hours_old : Option Int := none
  search_term : Option String := none
  match_threshold : Option ℚ := none
deriving DecidableEq, Repr

/-! ### Python truthiness helpers -/

/-- Python truthiness of an optional string: `None` and `""` are falsy. -/
def strFalsy : Option String → Bool
  | none => true
  | some s => s.data.isEmpty

/-- Python `a or b` for an optional string `a` (falsy when `None` or empty). -/
def pyOrStr (a : Option String) (b : String) : String :=
  match a with
  | some s => if s.data.isEmpty then b else s
  | none => b

/-- Python `a or b` for an optional list (falsy when `None` or empty). -/
def pyOrList (a : Option (List String)) (b : List String) : List String :=
  match a with
  | some l => if l.isEmpty then b else l
  | none => b

/-- Python `a or b` for an optional integer (falsy when `None` or `0`). -/
def pyOrInt (a : Option Int) (b : Int) : Int :=
  match a with
  | some n => if n = 0 then b else n
  | none => b

/-- Python `str.lower()` (ASCII case folding, which is all the strings
involved exercise), written on the character list so it evaluates. -/
def strToLower (s : String) : String := String.mk (s.data.map Char.toLower)

/-! ### Date parsing (`profile_extractor.py::_parse_date`)

`_parse_date` calls `datetime.strptime(date_str, "%Y-%m-%d")`, falling back to
`datetime.strptime(f"{date_str}-01-01", "%Y-%m-%d")`, and returns `None` when
both fail or the input is falsy.  The CPython `_strptime` engine matches `%Y` as exactly
four digits, `%m` and `%d` as one or two digits, requires the whole string to
be consumed, and `datetime.date` then checks calendar validity
(year 1..9999).  Inputs may be arbitrary Python values: a non-string makes the
first `strptime` raise `TypeError` (caught), and the f-string fallback
stringifies the value. -/

/-- A Python value as it can reach `_parse_date` from decoded JSON. -/
inductive PyVal where
  | pyNone
  | pyStr (s : String)
  | pyInt (n : Int)
  | pyBool (b : Bool)
deriving DecidableEq, Repr

/-- Python truthiness of a `PyVal`. -/
def pyTruthy : PyVal → Bool
  | .pyNone => false
  | .pyStr s => !s.data.isEmpty
  | .pyInt n => n != 0
  | .pyBool b => b

/-- Python `f"{v}"` stringification of a `PyVal`. -/
def pyRender : PyVal → String
  | .pyNone => "None"
  | .pyStr s => s
  | .pyInt n => toString n
  | .pyBool b => if b then "True" else "False"

/-- Numeric value of a digit character. -/
def cv (c : Char) : Nat := c.toNat - 48

/-- Parse `%m-`: one or two digits followed by a dash (greedy, as the regex
`\d\d|\d` with a following literal dash). Returns the month and the rest. -/
def parseMonthPart : List Char → Option (Nat × List Char)
  | a :: b :: c :: rest =>
    if a.isDigit && b.isDigit && c = '-' then some (cv a * 10 + cv b, rest)
    else if a.isDigit && b = '-' then some (cv a, c :: rest)
    else none
  | [a, b] => if a.isDigit && b = '-' then some (cv a, []) else none
  | _ => none

/-- Parse `%d` at end of string: one or two digits consuming the whole rest. -/
def parseDayPart : List Char → Option Nat
  | [a] => if a.isDigit then some (cv a) else none
  | [a, b] => if a.isDigit && b.isDigit then some (cv a * 10 + cv b) else none
  | _ => none

/-- Match `\d\d\d\d-(\d\d|\d)-(\d\d|\d)` against the whole character list. -/
def parseYMDchars : List Char → Option (Nat × Nat × Nat)
  | y1 :: y2 :: y3 :: y4 :: '-' :: rest =>
    if y1.isDigit && y2.isDigit && y3.isDigit && y4.isDigit then
      match parseMonthPart rest with
      | some (m, dayChars) =>
        match parseDayPart dayChars with
        | some d => some (cv y1 * 1000 + cv y2 * 100 + cv y3 * 10 + cv y4, m, d)
        | none => none
      | none => none
    else none
  | _ => none

/-- Gregorian leap year, as `datetime` uses. -/
def isLeapYear (y : Nat) : Bool := y % 4 = 0 && (y % 100 != 0 || y % 400 = 0)

/-- Days in a month, as `datetime` uses. -/
def daysInMonth (y m : Nat) : Nat :=
  if m = 2 then (if isLeapYear y then 29 else 28)
  else if m = 4 ∨ m = 6 ∨ m = 9 ∨ m = 11 then 30
  else 31

/-- Calendar validity as `datetime.date(y, m, d)` checks it. -/
def validDate (y m d : Nat) : Bool :=
  1 ≤ y && y ≤ 9999 && 1 ≤ m && m ≤ 12 && 1 ≤ d && d ≤ daysInMonth y m

/-- Total model of `datetime.strptime(s, "%Y-%m-%d").date()`. -/
def strptimeYMD (s : String) : Option PDate :=
  match parseYMDchars s.data with
  | some (y, m, d) => if validDate y m d then some ⟨y, m, d⟩ else none
  | none => none

/-- profile_extractor.py `_parse_date`.  A falsy input returns `None`; a string
is tried against `%Y-%m-%d` first; on failure (or for any non-string, whose
first `strptime` raises a caught `TypeError`) the stringified value with
`"-01-01"` appended is tried; both failing returns `None`. -/
def parseDate (v : PyVal) : Option PDate :=
  if !pyTruthy v then none
  else
    match v with
    | .pyStr s =>
      match strptimeYMD s with
      | some d => some d
      | none => strptimeYMD (s ++ "-01-01")
    | _ => strptimeYMD (pyRender v ++ "-01-01")

/-- Digit character for `n < 10`, used to state the `YYYY-MM-DD` format. -/
def dch (n : Nat) : Char := Char.ofNat (48 + n)

/-- Two-digit zero-padded rendering. -/
def render2 (n : Nat) : List Char := [dch (n / 10), dch (n % 10)]

/-- Four-digit zero-padded rendering. -/
def render4 (n : Nat) : List Char :=
  [dch (n / 1000), dch (n / 100 % 10), dch (n / 10 % 10), dch (n % 10)]

/-- The canonical `YYYY-MM-DD` string of a date. -/
def fmtYMD (y m d : Nat) : String :=
  String.mk (render4 y ++ '-' :: (render2 m ++ '-' :: render2 d))

/-! ### JSON values and the skills-matcher response parsing
(`skills_matcher.py::_analyze_skill_matches_for_job`)

The LLM reply is a raw string; `json.loads` is an external decoder whose exact
grammar is not re-implemented here — functions that need it take a decoder
`String → Except String Json` as an argument, so the theorems quantify over
every decoder outcome. -/

/-- A decoded JSON value (the result type of `json.loads`). -/
inductive Json where
  | null
  | jbool (b : Bool)
  | num (q : ℚ)
  | str (s : String)
  | arr (elems : List Json)
  | obj (fields : List (String × Json))

/-- Dict lookup: `d.get(key)` on a decoded JSON object. -/
def lookupField (fields : List (String × Json)) (key : String) : Option Json :=
  match fields.find? (fun p => p.1 = key) with
  | some p => some p.2
  | none => none

/-- Decimal literal `[+-]?digits[.digits]` (at least one digit overall), the
common shape Python `float()` accepts from a string. -/
def parseDecimal (s : String) : Option ℚ :=
  let (sgn, body) : ℚ × List Char :=
    match s.data with
    | '-' :: r => (-1, r)
    | '+' :: r => (1, r)
    | r => (1, r)
  let intPart := body.takeWhile (·.isDigit)
  let rest := body.dropWhile (·.isDigit)
  match rest with
  | [] =>
    if intPart.isEmpty then none
    else some (sgn * (intPart.foldl (fun a c => a * 10 + cv c) 0 : ℚ))
  | '.' :: fracChars =>
    if fracChars.all (·.isDigit) && !(intPart.isEmpty && fracChars.isEmpty) then
      let ip : ℚ := intPart.foldl (fun a c => a * 10 + cv c) 0
      let fp : ℚ := fracChars.foldl (fun a c => a * 10 + cv c) 0
      some (sgn * (ip + fp / (10 ^ fracChars.length : ℚ)))
    else none
  | _ => none

/-- Python `float()` applied to a decoded JSON value: numbers pass through,
booleans coerce to 0/1, strings parse as decimal literals (the common case;
exotic float syntax is out of scope), everything else raises (`none`). -/
def pyFloat : Json → Option ℚ
  | .num q => some q
  | .jbool b => some (if b then 1 else 0)
  | .str s => parseDecimal s.trim
  | _ => none

/-- Pydantic lax `bool` coercion (bool, 0/1 numbers, true/false-like strings). -/
def pyBoolCoerce : Json → Option Bool
  | .jbool b => some b
  | .num q => if q = 0 then some false else if q = 1 then some true else none
  | .str s =>
    match strToLower s with
    | "true" | "yes" | "on" | "1" => some true
    | "false" | "no" | "off" | "0" => some false
    | _ => none
  | _ => none

/-- All elements must be strings (`list[str]` validation). -/
def allStrings : List Json → Option (List String)
  | [] => some []
  | .str s :: rest =>
    match allStrings rest with
    | some tail => some (s :: tail)
    | none => none
  | _ => none

/-- One iteration of the conversion loop in
`_analyze_skill_matches_for_job`: build a `SkillMatch` from one decoded JSON
element; any failure (non-dict element, missing/ill-typed field, failing
`float()`, out-of-range score) raises inside the per-element `try` and the
element is skipped (`none`). -/
def convertMatchData (j : Json) : Option SkillMatch :=
  match j with
  | .obj fields => do
    let skill ← match (lookupField fields "skill").getD (.str "") with
      | .str s => some s
      | _ => none
    let uhs ← pyBoolCoerce ((lookupField fields "user_has_skill").getD (.jbool false))
    let prof ← match (lookupField fields "proficiency_level").getD .null with
      | .null => some none
      | .str s => some (some s)
      | _ => none
    let ms ← pyFloat ((lookupField fields "match_score").getD (.num 0))
    let ev ← match lookupField fields "evidence" with
      | some (.arr l) => allStrings l
      | _ => some []
    if 0 ≤ ms && ms ≤ 1 then
      some { skill := skill, user_has_skill := uhs, proficiency_level := prof,
             match_score := ms, evidence := ev }
    else none
  | _ => none

/-- The conversion loop: each element is tried independently; failures are
skipped (`continue`), successes are appended in order. -/
def convertMatches : List Json → List SkillMatch
  | [] => []
  | d :: rest =>
    match convertMatchData d with
    | some sm => sm :: convertMatches rest
    | none => convertMatches rest

/-- Markdown code-fence stripping applied to the raw reply before
`json.loads` (`cleaned_content` computation in the source). -/
def cleanResponse (response_content : String) : String :=
  let c := response_content.trim
  let c := if c.startsWith "```json" then c.drop 7 else c
  let c := if c.endsWith "```" then c.dropRight 3 else c
  c.trim

/-- Response handling of `_analyze_skill_matches_for_job` after the LLM call:
strip fences, decode, require an array (a decode failure or non-array reply is
caught inside the stage and degrades to `[]`), then convert elements. -/
def analyzeReplyMatches (jsonDecode : String → Except String Json)
    (response_content : String) : List SkillMatch :=
  match jsonDecode (cleanResponse response_content) with
  | .error _ => []
  | .ok (.arr elems) => convertMatches elems
  | .ok _ => []

/-! ### Deterministic generator sub-steps -/

/-- The `_calculate_match_percentage` function (identical in `resume_generator.py` and
`cover_letter_generator.py`): mean of `match_score` over matches the user has,
zero-weighted for the rest, times 100; 0 for an empty list. -/
def calculateMatchPercentage (skill_matches : List SkillMatch) : ℚ :=
  if skill_matches.isEmpty then 0
  else
    let total_score := ((skill_matches.filter (·.user_has_skill)).map (·.match_score)).sum
    let max_possible_score : ℚ := skill_matches.length
    if 0 < max_possible_score then total_score / max_possible_score * 100 else 0

/-- Substring test (`pat in text` for Python strings) on character lists. -/
def listContainsSub (text pat : List Char) : Bool :=
  text.tails.any (fun t => pat.isPrefixOf t)

/-- Python `pat in text` on strings. -/
def strContainsSub (text pat : String) : Bool := listContainsSub text.data pat.data

/-- Python `", ".join(l)`. -/
def joinComma (l : List String) : String := String.intercalate ", " l

/-- cover_letter_generator.py `_generate_tailoring_notes`: fixed, deterministic
rule order. -/
def generateTailoringNotes (skill_matches : List SkillMatch) (job_listing : JobListing) :
    List String :=
  let missing_skills :=
    (skill_matches.filter (fun m => !m.user_has_skill && m.match_score < 3/10)).map (·.skill)
  let notes : List String :=
    if !missing_skills.isEmpty then
      ["Consider highlighting transferable skills or learning interest in: " ++
        joinComma (missing_skills.take 3)]
    else []
  let strong_matches :=
    (skill_matches.filter (fun m => m.user_has_skill && m.match_score ≥ 8/10)).map (·.skill)
  let notes :=
    if !strong_matches.isEmpty then
      notes ++ ["Emphasize these strong skill matches in your cover letter: " ++
        joinComma (strong_matches.take 3)]
    else notes
  let notes := notes ++
    ["Research " ++ job_listing.company ++
      "\x27s recent news, values, and culture to personalize your letter"]
  notes ++ ["Consider following up within 1-2 weeks if you don\x27t hear back"]

/-- resume_generator.py `_create_skills_section`, first loop: matched skills
(user has them, score > 0.5). -/
def matchedSkills (skill_matches : List SkillMatch) : List String :=
  (skill_matches.filter (fun m => m.user_has_skill && m.match_score > 1/2)).map (·.skill)

/-- The case-insensitive either-direction substring overlap used when
prioritizing matched skills. -/
def skillOverlaps (skill user_skill : String) : Bool :=
  strContainsSub (strToLower user_skill) (strToLower skill) ||
    strContainsSub (strToLower skill) (strToLower user_skill)

/-- Matched skills kept by the prioritization loop: those overlapping some
profile skill. -/
def matchedOverlappingSkills (user_profile : UserProfile)
    (skill_matches : List SkillMatch) : List String :=
  (matchedSkills skill_matches).filter
    (fun sk => user_profile.skills.any (fun us => skillOverlaps sk us))

/-- Second loop of `_create_skills_section`: append each remaining user skill
unless it is a case-insensitive substring of a skill already in the list. -/
def addRemainingSkills (acc : List String) : List String → List String
  | [] => acc
  | sk :: rest =>
    if acc.any (fun ps => strContainsSub (strToLower ps) (strToLower sk)) then
      addRemainingSkills acc rest
    else addRemainingSkills (acc ++ [sk]) rest

/-- The full prioritized skill list before truncation. -/
def prioritizedSkills (user_profile : UserProfile)
    (skill_matches : List SkillMatch) : List String :=
  addRemainingSkills (matchedOverlappingSkills user_profile skill_matches)
    user_profile.skills

/-- The skill names rendered into the skills section (`prioritized_skills[:15]`). -/
def skillsSectionList (user_profile : UserProfile)
    (skill_matches : List SkillMatch) : List String :=
  (prioritizedSkills user_profile skill_matches).take 15

/-- resume_generator.py `_create_skills_section`. -/
def createSkillsSection (user_profile : UserProfile)
    (skill_matches : List SkillMatch) : ResumeSection :=
  { section_name := "Technical Skills",
    content := joinComma (skillsSectionList user_profile skill_matches),
    priority := 2 }

/-! ### External capabilities (oracles)

Each stage delegates its non-deterministic work to an external capability
(LLM call or job-scraping service).  The `Oracles` record fixes the outcomes
of one run; `Except.error e` models the call raising an exception whose string
form is `e`. -/

/-- One raw listing record returned by the scraping service; every field is
already string-coerced (`str(row.get(..., ""))` in the source). -/
structure RawJob where
  title : String := ""
  company : String := ""
  location : String := ""
  description : String := ""
  job_url : String := ""
  date_posted : String := ""
  job_type : String := ""
  salary : String := ""
deriving DecidableEq, Repr

/-- External-call outcomes for one workflow run. -/
structure Oracles where
  /-- Outcome of the profile-extraction pipeline `llm.invoke` + `json.loads` +
  `_parse_profile_data` (the LLM text and its field mapping are opaque): a
  `UserProfile` or the message of the raised exception. -/
  profileLLM : Except String UserProfile
  /-- Outcome of `jobspy.scrape_jobs(site_name, search_term, location, results_wanted,
  hours_old)` outcome: `none` models a `None` DataFrame, `some rows` the
  listing rows; `.error` models a raised exception. -/
  searchCall : List String → String → String → Int → Int →
    Except String (Option (List RawJob))
  /-- Raw text reply of the skills-matcher LLM call for the i-th job listing;
  `.error` models the call raising. -/
  skillsLLM : Nat → Except String String
  /-- The `json.loads` decoder as used by the skills matcher. -/
  jsonDecode : String → Except String Json
  /-- Raw body text of the cover-letter LLM call for the i-th job;
  `.error` models the call raising. -/
  coverLetterLLM : Nat → Except String String

/-! ### Stage 1: profile extraction (`profile_extractor.py::extract_profile`) -/

/-- profile_extractor.py `extract_profile`: missing/empty raw text appends one
error; otherwise the LLM/parse pipeline either yields a profile (stored, step
recorded) or raises (caught, converted to a `"Profile extraction error: ..."`
entry, nothing stored). -/
def extractProfile (o : Oracles) (state : WorkflowState) : WorkflowState :=
  if strFalsy state.user_profile_raw then
    { state with errors := state.errors ++ ["No user profile data provided"] }
  else
    match o.profileLLM with
    | .ok up =>
      { state with
          user_profile := some up,
          step_completed := state.step_completed ++ ["profile_extraction"] }
    | .error e =>
      { state with errors := state.errors ++ ["Profile extraction error: " ++ e] }

/-! ### Stage 2: job search (`job_search.py::search_jobs`) -/

/-- job_search.py `_is_remote_job`. -/
def isRemoteJob (row : RawJob) : Bool :=
  let location := strToLower row.location
  let description := strToLower row.description
  ["remote", "work from home", "wfh", "anywhere", "virtual"].any
    (fun indicator =>
      strContainsSub location indicator || strContainsSub description indicator)

/-- Conversion of one raw row into a `JobListing` (description truncated to
500 characters). -/
def rowToListing (row : RawJob) : JobListing :=
  { title := row.title, company := row.company, location := some row.location,
    description := some (row.description.take 500), job_url := some row.job_url,
    date_posted := some row.date_posted, job_type := some row.job_type,
    salary := some row.salary, is_remote := isRemoteJob row }

/-- Keep-first-occurrence deduplication.  (The source uses `list(set(...))`,
whose iteration order CPython leaves unspecified; first-occurrence order is the
deterministic embedding of that set.) -/
def dedupKeepFirst (l : List String) : List String :=
  l.foldl (fun acc x => if acc.contains x then acc else acc ++ [x]) []

/-- job_search.py `_generate_search_keywords`: top-5 skills, two most recent
positions, up to 3 technologies from each of the two most recent positions,
stripped, non-empty, deduplicated, capped at 10. -/
def generateSearchKeywords (user_profile : UserProfile) : List String :=
  let keywords := user_profile.skills.take 5
  let keywords := keywords ++ (user_profile.experience.take 2).map (·.position)
  let keywords := keywords ++
    ((user_profile.experience.take 2).map (fun e => e.technologies_used.take 3)).flatten
  let keywords :=
    dedupKeepFirst ((keywords.map (·.trim)).filter (fun k => !k.data.isEmpty))
  keywords.take 10

/-- job_search.py `search_jobs`: missing profile appends one error; otherwise
the scraping call either raises (caught, `"Job search failed: ..."` appended)
or yields rows (possibly `None`/empty, which is a valid zero-result outcome)
stored as a `JobMatches` with the step recorded. -/
def searchJobs (o : Oracles) (state : WorkflowState) : WorkflowState :=
  match state.user_profile with
  | none =>
    { state with errors := state.errors ++ ["User profile not found for job search"] }
  | some user_profile =>
    let location :=
      pyOrStr state.job_search_location
        (pyOrStr user_profile.contact_info.location "Remote")
    let job_sites := pyOrList state.job_sites ["indeed", "linkedin", "glassdoor"]
    let max_results := pyOrInt state.max_results 20
    let hours_old := pyOrInt state.hours_old 72
    let search_keywords := generateSearchKeywords user_profile
    let is_remote_search :=
      ["remote", "anywhere", "global"].contains (strToLower location)
    match o.searchCall job_sites (String.intercalate " " (search_keywords.take 3))
        (if is_remote_search then "Remote" else location) max_results hours_old with
    | .error e =>
      { state with errors := state.errors ++ ["Job search failed: " ++ e] }
    | .ok rows =>
      let job_listings :=
        match rows with
        | none => []
        | some rs => rs.map rowToListing
      let job_matches : JobMatches :=
        { search_location := location, search_keywords := search_keywords,
          is_remote_search := is_remote_search, jobs := job_listings,
          total_results := job_listings.length }
      { state with
          job_matches := some job_matches,
          step_completed := state.step_completed ++ ["job_search"] }

/-! ### Stage 3: skills matching (`skills_matcher.py::match_skills`) -/

/-- The per-listing loop of `match_skills`: the i-th LLM call either raises
(aborting the loop; partial results are discarded because the state assignment
comes after the loop) or yields a reply parsed by `analyzeReplyMatches`. -/
def analyzeAll (o : Oracles) : Nat → List JobListing → Except String (List (JobListing × List SkillMatch))
  | _, [] => .ok []
  | i, job :: rest =>
    match o.skillsLLM i with
    | .error e => .error e
    | .ok resp =>
      match analyzeAll o (i + 1) rest with
      | .error e => .error e
      | .ok tail => .ok ((job, analyzeReplyMatches o.jsonDecode resp) :: tail)

/-- skills_matcher.py `match_skills`: missing profile or job matches appends
one error; an LLM exception inside the loop is caught as a
`"Skills matching error: ..."` entry; otherwise the per-job match lists are
stored and the step recorded. -/
def matchSkills (o : Oracles) (state : WorkflowState) : WorkflowState :=
  match state.user_profile, state.job_matches with
  | some _, some job_matches =>
    match analyzeAll o 0 job_matches.jobs with
    | .ok job_skill_matches =>
      { state with
          job_skill_matches := some job_skill_matches,
          step_completed := state.step_completed ++ ["skills_matching"] }
    | .error e =>
      { state with errors := state.errors ++ ["Skills matching error: " ++ e] }
  | _, _ =>
    { state with
        errors := state.errors ++
          ["Missing user profile or job matches for skills matching"] }

/-! ### Stage 4: cover-letter generation
(`cover_letter_generator.py::generate_cover_letter`) -/

/-- cover_letter_generator.py `_create_job_description_from_listing`. -/
def createJobDescriptionFromListing (job_listing : JobListing) : JobDescription :=
  { title := job_listing.title, company := job_listing.company,
    location := job_listing.location, job_type := job_listing.job_type,
    salary_range := job_listing.salary,
    description := job_listing.description.getD "",
    responsibilities := [], requirements := [], preferred_qualifications := [],
    company_culture := none, benefits := [] }

/-- cover_letter_generator.py `_create_tailored_cover_letter`, given the body
text the LLM produced (used verbatim). -/
def createTailoredCoverLetter (user_profile : UserProfile)
    (job_listing : JobListing) (skill_matches : List SkillMatch)
    (content : String) : GeneratedCoverLetter :=
  { user_profile := user_profile,
    job_description := createJobDescriptionFromListing job_listing,
    skill_matches := skill_matches,
    cover_letter_content := content,
    tailoring_notes := generateTailoringNotes skill_matches job_listing,
    match_percentage := calculateMatchPercentage skill_matches }

/-- The per-job loop of `generate_cover_letter`: the i-th LLM call either
raises (aborting the loop) or yields the letter body. -/
def coverLettersLoop (o : Oracles) (user_profile : UserProfile) : Nat → List (JobListing × List SkillMatch) → Except String (List GeneratedCoverLetter)
  | _, [] => .ok []
  | i, (job, sms) :: rest =>
    match o.coverLetterLLM i with
    | .error e => .error e
    | .ok content =>
      match coverLettersLoop o user_profile (i + 1) rest with
      | .error e => .error e
      | .ok tail => .ok (createTailoredCoverLetter user_profile job sms content :: tail)

/-- cover_letter_generator.py `generate_cover_letter`: a missing profile or a
missing-or-empty `job_skill_matches` (Python `not []` is true) appends one
error; an LLM exception is caught as `"Cover letter generation error: ..."`;
otherwise the letters filtered by `match_threshold` (falsy defaults to 0) are
stored and the step recorded. -/
def generateCoverLetter (o : Oracles) (state : WorkflowState) : WorkflowState :=
  let match_threshold : ℚ := state.match_threshold.getD 0
  match state.user_profile, state.job_skill_matches with
  | some user_profile, some (jm :: rest) =>
    match coverLettersLoop o user_profile 0 (jm :: rest) with
    | .error e =>
      { state with errors := state.errors ++ ["Cover letter generation error: " ++ e] }
    | .ok letters =>
      { state with
          generated_cover_letters :=
            some (letters.filter (fun cl => cl.match_percentage ≥ match_threshold)),
          step_completed := state.step_completed ++ ["cover_letter_generation"] }
  | _, _ =>
    { state with
        errors := state.errors ++ ["Missing required data for cover letter generation"] }

/-! ### The orchestrator (`workflows/graph.py::create_cover_letter_workflow`)

The compiled graph is a linear chain with unconditional edges:
`extract_profile → search_jobs → match_skills → generate_cover_letter → END`.
(`should_continue` exists in the file but is wired into no edge.)  The runner
below follows the edge function from the entry point, applying the stage
function of each node to the threaded state and recording the nodes executed. -/

/-- The nodes of the compiled graph, plus the `END` sentinel. -/
inductive Node where
  | extractProfile
  | searchJobs
  | matchSkills
  | generateCoverLetter
  | terminal
deriving DecidableEq, Repr

/-- The edge function of the graph (`add_edge` calls). -/
def nextNode : Node → Option Node
  | .extractProfile => some .searchJobs
  | .searchJobs => some .matchSkills
  | .matchSkills => some .generateCoverLetter
  | .generateCoverLetter => some .terminal
  | .terminal => none

/-- The stage function attached to each node (`add_node` calls). -/
def applyNode (o : Oracles) : Node → WorkflowState → WorkflowState
  | .extractProfile => extractProfile o
  | .searchJobs => searchJobs o
  | .matchSkills => matchSkills o
  | .generateCoverLetter => generateCoverLetter o
  | .terminal => id

/-- Fuel-bounded execution from a node: run the stage of the node on the state,
follow the unique outgoing edge, stop at `END`.  Returns the list of executed
(non-END) nodes and the final state. -/
def runNodes (o : Oracles) : Nat → Node → WorkflowState → List Node × WorkflowState
  | 0, _, state => ([], state)
  | Nat.succ fuel, n, state =>
    match n with
    | .terminal => ([], state)
    | _ =>
      let state' := applyNode o n state
      match nextNode n with
      | some n' =>
        let r := runNodes o fuel n' state'
        (n :: r.1, r.2)
      | none => ([n], state')

/-- One full run of the compiled workflow from the entry point (5 units of
fuel suffice for the 4-node chain plus `END`). -/
def runWorkflow (o : Oracles) (state : WorkflowState) : List Node × WorkflowState :=
  runNodes o 5 .extractProfile state

/-- graph.py `should_continue` — defined in the source but attached to no
conditional edge of the compiled workflow. -/
def shouldContinue (state : WorkflowState) : Bool := !state.errors.isEmpty

/-! ### The error-string format of the stage-boundary handlers -/

/-- An error string of the form `"<Stage> error: <message>"`. -/
def hasStageErrorForm (e : String) : Prop :=
  ∃ stage msg : String, e = stage ++ " error: " ++ msg

/-! ### Concrete fixtures used by witnesses and counterexamples -/

/-- A minimal profile fixture. -/
def sampleProfile : UserProfile :=
  { full_name := "Ada", contact_info := { email := "ada@example.com" },
    skills := ["Python"] }

/-- A minimal job-listing fixture. -/
def sampleListing : JobListing := { title := "Dev", company := "Acme" }

/-- The all-defaults initial state, as the CLI builds it before filling
inputs. -/
def emptyState : WorkflowState := {}

/-- A state holding only the raw profile text. -/
def rawOnlyState : WorkflowState := { emptyState with user_profile_raw := some "Ada, dev" }

/-- A state in which profile extraction has already succeeded. -/
def profiledState : WorkflowState :=
  { emptyState with
      user_profile := some sampleProfile,
      step_completed := ["profile_extraction"] }

/-- Oracles for a run where every external call succeeds and the search
returns no rows. -/
def okEmptyOracles : Oracles :=
  { profileLLM := .ok sampleProfile,
    searchCall := fun _ _ _ _ _ => .ok none,
    skillsLLM := fun _ => .ok "[]",
    jsonDecode := fun _ => .ok (Json.arr []),
    coverLetterLLM := fun _ => .ok "Body" }

/-- Oracles where the scraping call raises `boom`. -/
def failSearchOracles : Oracles :=
  { okEmptyOracles with searchCall := fun _ _ _ _ _ => .error "boom" }

/-- Oracles where every LLM call raises `boom`. -/
def failAllOracles : Oracles :=
  { profileLLM := .error "boom",
    searchCall := fun _ _ _ _ _ => .error "boom",
    skillsLLM := fun _ => .error "boom",
    jsonDecode := fun _ => .error "boom",
    coverLetterLLM := fun _ => .error "boom" }

/-- The two duplicate high-scoring Python matches used to exhibit the missing
deduplication in the skills section. -/
def dupMatches : List SkillMatch :=
  [{ skill := "Python", user_has_skill := true, match_score := 9/10 },
   { skill := "Python", user_has_skill := true, match_score := 9/10 }]

/-- The scenario-1 match list of the spec (§8). -/
def scenario1Matches : List SkillMatch :=
  [{ skill := "Python", user_has_skill := true, match_score := 9/10 },
   { skill := "Docker", user_has_skill := false, match_score := 0 }]

/-- A state in which a one-listing job search has already succeeded. -/
def searchedState : WorkflowState :=
  { profiledState with
      job_matches := some
        { search_location := "Remote", jobs := [sampleListing], total_results := 1 },
      step_completed := ["profile_extraction", "job_search"] }

/-- A state in which skills matching has already succeeded on one listing. -/
def matchedState : WorkflowState :=
  { searchedState with
      job_skill_matches := some [(sampleListing, [])],
      step_completed := ["profile_extraction", "job_search", "skills_matching"] }

/-- A well-formed decoded skill-match element. -/
def sampleMatchJson : Json :=
  Json.obj [("skill", Json.str "Python"), ("user_has_skill", Json.jbool true),
    ("match_score", Json.num (9/10))]

/-- The `JobMatches` record a zero-result search stores (spelled out for the
proofs about C8/C10). -/
def emptyJobMatchesFor (s : WorkflowState) (up : UserProfile) : JobMatches :=
  { search_location :=
      pyOrStr s.job_search_location (pyOrStr up.contact_info.location "Remote"),
    search_keywords := generateSearchKeywords up,
    is_remote_search := ["remote", "anywhere", "global"].contains
      (strToLower (pyOrStr s.job_search_location (pyOrStr up.contact_info.location "Remote"))),
    jobs := [],
    total_results := 0 }

/-! ## Theorems -/

/-- Unfolding the fuel-bounded runner on the concrete 4-node chain. -/
theorem runWorkflow_eq (o : Oracles) (s : WorkflowState) :
    runWorkflow o s =
      ([Node.extractProfile, Node.searchJobs, Node.matchSkills, Node.generateCoverLetter],
        generateCoverLetter o (matchSkills o (searchJobs o (extractProfile o s)))) := rfl

/-- C1: The orchestrator never inspects the errors list to short-circuit: for
every oracle outcome and every initial state — in particular any state whose
errors list is already non-empty — the compiled workflow executes exactly the
four stage nodes profile extraction, job search, skills matching and
cover-letter generation, once each, in that fixed order, and the final state
is the in-order composition of the four stage functions. -/
theorem claim_C1_all_stages_run_in_order (o : Oracles) (s : WorkflowState) :
    (runWorkflow o s).1 =
      [Node.extractProfile, Node.searchJobs, Node.matchSkills, Node.generateCoverLetter] ∧
    (runWorkflow o s).2 =
      generateCoverLetter o (matchSkills o (searchJobs o (extractProfile o s))) :=
  ⟨rfl, rfl⟩

/-- Stage outputs only ever extend `errors`/`step_completed` by appending. -/
theorem extractProfile_append_only (o : Oracles) (s : WorkflowState) :
    s.errors <+: (extractProfile o s).errors ∧
      s.step_completed <+: (extractProfile o s).step_completed := by
  unfold extractProfile
  split
  · exact ⟨List.prefix_append _ _, List.prefix_rfl⟩
  · split
    · exact ⟨List.prefix_rfl, List.prefix_append _ _⟩
    · exact ⟨List.prefix_append _ _, List.prefix_rfl⟩

theorem searchJobs_append_only (o : Oracles) (s : WorkflowState) :
    s.errors <+: (searchJobs o s).errors ∧
      s.step_completed <+: (searchJobs o s).step_completed := by
  unfold searchJobs
  split
  · exact ⟨List.prefix_append _ _, List.prefix_rfl⟩
  · dsimp only
    split
    · exact ⟨List.prefix_append _ _, List.prefix_rfl⟩
    · exact ⟨List.prefix_rfl, List.prefix_append _ _⟩

theorem matchSkills_append_only (o : Oracles) (s : WorkflowState) :
    s.errors <+: (matchSkills o s).errors ∧
      s.step_completed <+: (matchSkills o s).step_completed := by
  unfold matchSkills
  split
  · split
    · exact ⟨List.prefix_rfl, List.prefix_append _ _⟩
    · exact ⟨List.prefix_append _ _, List.prefix_rfl⟩
  · exact ⟨List.prefix_append _ _, List.prefix_rfl⟩

theorem generateCoverLetter_append_only (o : Oracles) (s : WorkflowState) :
    s.errors <+: (generateCoverLetter o s).errors ∧
      s.step_completed <+: (generateCoverLetter o s).step_completed := by
  unfold generateCoverLetter
  split
  · split
    · exact ⟨List.prefix_append _ _, List.prefix_rfl⟩
    · exact ⟨List.prefix_rfl, List.prefix_append _ _⟩
  · exact ⟨List.prefix_append _ _, List.prefix_rfl⟩

/-- C2: For the process operation of every stage and every input state, the
output `errors` and `step_completed` lists each have the corresponding input
list as a prefix: every stage only appends and never removes or overwrites
prior entries of either list. -/
theorem claim_C2_append_only_lists (o : Oracles) (s : WorkflowState) :
    (s.errors <+: (extractProfile o s).errors ∧
      s.step_completed <+: (extractProfile o s).step_completed) ∧
    (s.errors <+: (searchJobs o s).errors ∧
      s.step_completed <+: (searchJobs o s).step_completed) ∧
    (s.errors <+: (matchSkills o s).errors ∧
      s.step_completed <+: (matchSkills o s).step_completed) ∧
    (s.errors <+: (generateCoverLetter o s).errors ∧
      s.step_completed <+: (generateCoverLetter o s).step_completed) :=
  ⟨extractProfile_append_only o s, searchJobs_append_only o s,
    matchSkills_append_only o s, generateCoverLetter_append_only o s⟩

/-- C3: A stage invoked with its required state fields missing or empty
appends exactly one error string and returns a state in which every field
other than `errors` is unchanged: profile extraction with no raw profile
text, job search with no extracted profile, skills matching with no profile
or no job matches. -/
theorem claim_C3_missing_input_frame (o : Oracles) (s : WorkflowState) :
    (strFalsy s.user_profile_raw = true →
      extractProfile o s =
        { s with errors := s.errors ++ ["No user profile data provided"] }) ∧
    (s.user_profile = none →
      searchJobs o s =
        { s with errors := s.errors ++ ["User profile not found for job search"] }) ∧
    (s.user_profile = none ∨ s.job_matches = none →
      matchSkills o s =
        { s with errors := s.errors ++
            ["Missing user profile or job matches for skills matching"] }) := by
  refine ⟨fun h => ?_, fun h => ?_, fun h => ?_⟩
  · simp [extractProfile, h]
  · simp [searchJobs, h]
  · rcases h with h | h
    · simp [matchSkills, h]
    · cases hu : s.user_profile <;> simp [matchSkills, h, hu]

/-- Witness for C3 at a concrete all-empty state. -/
theorem claim_C3_missing_input_frame_witness :
    extractProfile okEmptyOracles emptyState =
      { emptyState with errors := ["No user profile data provided"] } ∧
    searchJobs okEmptyOracles emptyState =
      { emptyState with errors := ["User profile not found for job search"] } ∧
    matchSkills okEmptyOracles emptyState =
      { emptyState with
          errors := ["Missing user profile or job matches for skills matching"] } :=
  ⟨(claim_C3_missing_input_frame okEmptyOracles emptyState).1 (by decide),
    (claim_C3_missing_input_frame okEmptyOracles emptyState).2.1 rfl,
    (claim_C3_missing_input_frame okEmptyOracles emptyState).2.2 (Or.inl rfl)⟩

/-- Successful profile extraction stores the profile and records the step. -/
theorem extractProfile_ok (o : Oracles) (s : WorkflowState) (up : UserProfile)
    (hraw : strFalsy s.user_profile_raw = false) (hok : o.profileLLM = .ok up) :
    extractProfile o s =
      { s with
          user_profile := some up,
          step_completed := s.step_completed ++ ["profile_extraction"] } := by
  simp [extractProfile, hraw, hok]

/-- A job search whose scraping call succeeds with no rows (either a `None`
result or an empty row set) stores an empty `JobMatches` with
`total_results = 0`, records the step, and leaves `errors` alone. -/
theorem searchJobs_empty (o : Oracles) (s : WorkflowState) (up : UserProfile)
    (rows : Option (List RawJob)) (hup : s.user_profile = some up)
    (hok : ∀ a b c d f, o.searchCall a b c d f = .ok rows)
    (hempty : rows = none ∨ rows = some []) :
    ∃ jm : JobMatches, jm.jobs = [] ∧ jm.total_results = 0 ∧
      searchJobs o s =
        { s with
            job_matches := some jm,
            step_completed := s.step_completed ++ ["job_search"] } := by
  refine ⟨emptyJobMatchesFor s up, rfl, rfl, ?_⟩
  rcases hempty with rfl | rfl <;> simp [searchJobs, emptyJobMatchesFor, hup, hok]

/-- Skills matching over an empty job list completes without error: it stores
an empty `job_skill_matches` and records the step. -/
theorem matchSkills_emptyJobs (o : Oracles) (s : WorkflowState) (up : UserProfile)
    (jm : JobMatches) (hup : s.user_profile = some up)
    (hjm : s.job_matches = some jm) (hjobs : jm.jobs = []) :
    matchSkills o s =
      { s with
          job_skill_matches := some [],
          step_completed := s.step_completed ++ ["skills_matching"] } := by
  simp [matchSkills, hup, hjm, hjobs, analyzeAll]

/-- The cover-letter stage treats an empty `job_skill_matches` list as missing
input (`not []` is true in Python): one error, nothing else changes. -/
theorem generateCoverLetter_emptyMatches (o : Oracles) (s : WorkflowState)
    (h : s.job_skill_matches = some []) :
    generateCoverLetter o s =
      { s with
          errors := s.errors ++ ["Missing required data for cover letter generation"] } := by
  cases hu : s.user_profile <;> simp [generateCoverLetter, h, hu]

/-- C8: When the job-search capability returns zero listings (an empty or
`None` result set) without raising, the job-search stage records no error: it
stores a `job_matches` value with an empty jobs list and `total_results = 0`,
and appends the search step name to `step_completed`. -/
theorem claim_C8_zero_listings_not_error (o : Oracles) (s : WorkflowState)
    (up : UserProfile) (rows : Option (List RawJob))
    (hup : s.user_profile = some up)
    (hok : ∀ a b c d f, o.searchCall a b c d f = .ok rows)
    (hempty : rows = none ∨ rows = some []) :
    (searchJobs o s).errors = s.errors ∧
    (searchJobs o s).step_completed = s.step_completed ++ ["job_search"] ∧
    ∃ jm : JobMatches, (searchJobs o s).job_matches = some jm ∧
      jm.jobs = [] ∧ jm.total_results = 0 := by
  obtain ⟨jm, hjobs, htot, heq⟩ := searchJobs_empty o s up rows hup hok hempty
  rw [heq]
  exact ⟨rfl, rfl, jm, rfl, hjobs, htot⟩

/-- Witness for C8 at a concrete profiled state and a `None` row set. -/
theorem claim_C8_zero_listings_not_error_witness :
    (searchJobs okEmptyOracles profiledState).errors = [] ∧
    (searchJobs okEmptyOracles profiledState).step_completed =
      ["profile_extraction"] ++ ["job_search"] ∧
    ∃ jm : JobMatches, (searchJobs okEmptyOracles profiledState).job_matches = some jm ∧
      jm.jobs = [] ∧ jm.total_results = 0 :=
  claim_C8_zero_listings_not_error okEmptyOracles profiledState sampleProfile none
    rfl (fun _ _ _ _ _ => rfl) (Or.inl rfl)

/-- C10 (implicit): skills matching over an empty `jobs` list succeeds and
stores `job_skill_matches = []`, but the cover-letter stage treats that empty
list as missing input: it appends the error
`"Missing required data for cover letter generation"`, stores no cover
letters, and does not mark its step complete — so a run whose search
legitimately returned zero listings always ends with that error. -/
theorem claim_C10_empty_jobs_ends_in_error :
    (∀ (o : Oracles) (s : WorkflowState) (up : UserProfile) (jm : JobMatches),
      s.user_profile = some up → s.job_matches = some jm → jm.jobs = [] →
      matchSkills o s =
        { s with
            job_skill_matches := some [],
            step_completed := s.step_completed ++ ["skills_matching"] }) ∧
    (∀ (o : Oracles) (s : WorkflowState), s.job_skill_matches = some [] →
      generateCoverLetter o s =
        { s with
            errors := s.errors ++ ["Missing required data for cover letter generation"] }) ∧
    (∀ (o : Oracles) (s : WorkflowState) (up : UserProfile),
      strFalsy s.user_profile_raw = false → o.profileLLM = .ok up →
      (∀ a b c d f, o.searchCall a b c d f = .ok none) →
      (runWorkflow o s).2.errors =
        s.errors ++ ["Missing required data for cover letter generation"] ∧
      (runWorkflow o s).2.generated_cover_letters = s.generated_cover_letters ∧
      (runWorkflow o s).2.step_completed =
        s.step_completed ++ ["profile_extraction", "job_search", "skills_matching"]) := by
  refine ⟨matchSkills_emptyJobs, generateCoverLetter_emptyMatches, ?_⟩
  intro o s up h1 h2 h3
  have e1 := extractProfile_ok o s up h1 h2
  obtain ⟨jm, hjobs, _, e2⟩ :=
    searchJobs_empty o (extractProfile o s) up none (by rw [e1]) h3 (Or.inl rfl)
  have e3 := matchSkills_emptyJobs o (searchJobs o (extractProfile o s)) up jm
    (by rw [e2, e1]) (by rw [e2]) hjobs
  have e4 := generateCoverLetter_emptyMatches o
    (matchSkills o (searchJobs o (extractProfile o s))) (by rw [e3])
  refine ⟨?_, ?_, ?_⟩
  · rw [runWorkflow_eq, e4, e3, e2, e1]
  · rw [runWorkflow_eq, e4, e3, e2, e1]
  · rw [runWorkflow_eq, e4, e3, e2, e1]
    simp [List.append_assoc]

/-- Witness for C10 on a concrete raw-profile state with zero-result search. -/
theorem claim_C10_empty_jobs_ends_in_error_witness :
    (runWorkflow okEmptyOracles rawOnlyState).2.errors =
      [] ++ ["Missing required data for cover letter generation"] ∧
    (runWorkflow okEmptyOracles rawOnlyState).2.generated_cover_letters = none ∧
    (runWorkflow okEmptyOracles rawOnlyState).2.step_completed =
      [] ++ ["profile_extraction", "job_search", "skills_matching"] :=
  claim_C10_empty_jobs_ends_in_error.2.2 okEmptyOracles rawOnlyState sampleProfile
    (by decide) rfl (fun _ _ _ _ _ => rfl)

/-- A pattern occurring between two other pieces occurs as a substring. -/
theorem listContainsSub_append (A P B : List Char) :
    listContainsSub (A ++ (P ++ B)) P = true := by
  unfold listContainsSub
  rw [List.any_eq_true]
  exact ⟨P ++ B, (List.mem_tails _ _).2 (List.suffix_append A (P ++ B)),
    List.isPrefixOf_iff_prefix.2 (List.prefix_append P B)⟩

/-- Any string of the `"<Stage> error: <message>"` form contains
`" error: "`. -/
theorem stageErrorForm_contains {e : String} (h : hasStageErrorForm e) :
    strContainsSub e " error: " = true := by
  obtain ⟨st, msg, rfl⟩ := h
  unfold strContainsSub
  rw [String.data_append, String.data_append, List.append_assoc]
  exact listContainsSub_append _ _ _

/-- C4 (amended): every internal stage failure is caught at the stage
boundary and converted into a single error string appended to `errors`, the
rest of the state unchanged — of the form `"<Stage> error: <message>"` for
profile extraction, skills matching and cover-letter generation, but
`"Job search failed: <message>"` for the job-search stage. -/
theorem claim_C4_amended_stage_failures_caught (o : Oracles) (s : WorkflowState) :
    (∀ e, strFalsy s.user_profile_raw = false → o.profileLLM = .error e →
      extractProfile o s =
        { s with errors := s.errors ++ ["Profile extraction error: " ++ e] }) ∧
    (∀ e up, s.user_profile = some up →
      (∀ a b c d f, o.searchCall a b c d f = .error e) →
      searchJobs o s =
        { s with errors := s.errors ++ ["Job search failed: " ++ e] }) ∧
    (∀ e up jm, s.user_profile = some up → s.job_matches = some jm →
      analyzeAll o 0 jm.jobs = .error e →
      matchSkills o s =
        { s with errors := s.errors ++ ["Skills matching error: " ++ e] }) ∧
    (∀ e up h t, s.user_profile = some up → s.job_skill_matches = some (h :: t) →
      coverLettersLoop o up 0 (h :: t) = .error e →
      generateCoverLetter o s =
        { s with errors := s.errors ++ ["Cover letter generation error: " ++ e] }) := by
  refine ⟨fun e h1 h2 => ?_, fun e up h1 h2 => ?_,
    fun e up jm h1 h2 h3 => ?_, fun e up hh tt h1 h2 h3 => ?_⟩
  · simp [extractProfile, h1, h2]
  · simp [searchJobs, h1, h2]
  · simp [matchSkills, h1, h2, h3]
  · simp [generateCoverLetter, h1, h2, h3]

/-- Counterexample to C4 as stated: the job-search stage appends
`"Job search failed: boom"`, which is not of the claimed
`"<Stage> error: <message>"` form. -/
theorem claim_C4_counterexample_job_search_format :
    (searchJobs failSearchOracles profiledState).errors = ["Job search failed: boom"] ∧
    ¬ hasStageErrorForm "Job search failed: boom" := by
  constructor
  · rfl
  · intro hform
    exact absurd (stageErrorForm_contains hform) (by decide)

/-- Witness for amended C4 at a concrete state per stage, with every
external call raising `boom`. -/
theorem claim_C4_amended_stage_failures_caught_witness :
    extractProfile failAllOracles rawOnlyState =
      { rawOnlyState with errors := ["Profile extraction error: boom"] } ∧
    searchJobs failAllOracles profiledState =
      { profiledState with errors := ["Job search failed: boom"] } ∧
    matchSkills failAllOracles searchedState =
      { searchedState with errors := ["Skills matching error: boom"] } ∧
    generateCoverLetter failAllOracles matchedState =
      { matchedState with errors := ["Cover letter generation error: boom"] } :=
  ⟨(claim_C4_amended_stage_failures_caught failAllOracles rawOnlyState).1 "boom"
      (by decide) rfl,
    (claim_C4_amended_stage_failures_caught failAllOracles profiledState).2.1 "boom"
      sampleProfile rfl (fun _ _ _ _ _ => rfl),
    (claim_C4_amended_stage_failures_caught failAllOracles searchedState).2.2.1 "boom"
      sampleProfile _ rfl rfl rfl,
    (claim_C4_amended_stage_failures_caught failAllOracles matchedState).2.2.2 "boom"
      sampleProfile (sampleListing, []) [] rfl rfl rfl⟩

/-- When every skills-LLM call succeeds, the per-listing loop never fails. -/
theorem analyzeAll_isOk (o : Oracles) (h : ∀ i, ∃ r, o.skillsLLM i = .ok r) :
    ∀ (jobs : List JobListing) (i : Nat), ∃ v, analyzeAll o i jobs = .ok v := by
  intro jobs
  induction jobs with
  | nil => exact fun _ => ⟨[], rfl⟩
  | cons j rest ih =>
    intro i
    obtain ⟨r, hr⟩ := h i
    obtain ⟨v, hv⟩ := ih (i + 1)
    exact ⟨(j, analyzeReplyMatches o.jsonDecode r) :: v, by simp [analyzeAll, hr, hv]⟩

/-- C7: a skills-matcher LLM reply that fails to JSON-decode (after fence
stripping) or decodes to a non-array degrades to the empty match list for that
job, with no entry added to the pipeline errors list; and for an array reply each
element converts independently — a failing element is skipped while the others
are still converted. -/
theorem claim_C7_reply_parsing_degrades :
    (∀ (jd : String → Except String Json) (resp e : String),
      jd (cleanResponse resp) = .error e → analyzeReplyMatches jd resp = []) ∧
    (∀ (jd : String → Except String Json) (resp : String) (j : Json),
      jd (cleanResponse resp) = .ok j → (∀ l, j ≠ Json.arr l) →
      analyzeReplyMatches jd resp = []) ∧
    (∀ elems : List Json, convertMatches elems = elems.filterMap convertMatchData) ∧
    (∀ (l₁ l₂ : List Json) (d : Json), convertMatchData d = none →
      convertMatches (l₁ ++ d :: l₂) = convertMatches (l₁ ++ l₂)) ∧
    (∀ (o : Oracles) (s : WorkflowState) (up : UserProfile) (jm : JobMatches),
      s.user_profile = some up → s.job_matches = some jm →
      (∀ i, ∃ r, o.skillsLLM i = .ok r) → (matchSkills o s).errors = s.errors) := by
  refine ⟨fun jd resp e h => ?_, fun jd resp j h hna => ?_, ?_, ?_, ?_⟩
  · simp [analyzeReplyMatches, h]
  · cases j with
    | arr l => exact absurd rfl (hna l)
    | null => simp [analyzeReplyMatches, h]
    | jbool b => simp [analyzeReplyMatches, h]
    | num q => simp [analyzeReplyMatches, h]
    | str t => simp [analyzeReplyMatches, h]
    | obj f => simp [analyzeReplyMatches, h]
  · intro elems
    induction elems with
    | nil => rfl
    | cons d rest ih =>
      cases hd : convertMatchData d <;> simp [convertMatches, hd, ih]
  · intro l₁ l₂ d hd
    induction l₁ with
    | nil => simp [convertMatches, hd]
    | cons x rest ih =>
      cases hx : convertMatchData x <;> simp [convertMatches, hx, ih]
  · intro o s up jm h1 h2 h3
    obtain ⟨v, hv⟩ := analyzeAll_isOk o h3 jm.jobs 0
    simp [matchSkills, h1, h2, hv]

/-- Witness for C7: a failing decoder, a non-array reply, a skipped `null`
element next to a surviving valid element, and an all-ok run leaving errors
untouched. -/
theorem claim_C7_reply_parsing_degrades_witness :
    analyzeReplyMatches (fun _ => Except.error "bad") "not json" = [] ∧
    analyzeReplyMatches (fun _ => Except.ok (Json.str "y")) "y" = [] ∧
    convertMatches [Json.null, sampleMatchJson] =
      List.filterMap convertMatchData [Json.null, sampleMatchJson] ∧
    convertMatches ([] ++ Json.null :: [sampleMatchJson]) =
      convertMatches ([] ++ [sampleMatchJson]) ∧
    (matchSkills okEmptyOracles searchedState).errors = [] :=
  ⟨claim_C7_reply_parsing_degrades.1 _ "not json" "bad" rfl,
    claim_C7_reply_parsing_degrades.2.1 _ "y" (Json.str "y") rfl
      (fun _ h => Json.noConfusion h),
    claim_C7_reply_parsing_degrades.2.2.1 [Json.null, sampleMatchJson],
    claim_C7_reply_parsing_degrades.2.2.2.1 [] [sampleMatchJson] Json.null rfl,
    claim_C7_reply_parsing_degrades.2.2.2.2 okEmptyOracles searchedState
      sampleProfile _ rfl rfl (fun _ => ⟨"[]", rfl⟩)⟩

/-- The closed-form value of the match percentage on a non-empty list. -/
theorem calculateMatchPercentage_eq (l : List SkillMatch) (hne : l ≠ []) :
    calculateMatchPercentage l =
      ((l.filter (·.user_has_skill)).map (·.match_score)).sum / (l.length : ℚ) * 100 := by
  have hemp : l.isEmpty = false := by simpa [List.isEmpty_iff] using hne
  have hlen : (0 : ℚ) < l.length := by
    exact_mod_cast List.length_pos.2 hne
  simp [calculateMatchPercentage, hemp, hlen]

/-- C5: the match percentage equals (sum of `match_score` over matches with
`user_has_skill`) / (count of all matches) × 100, is 0 for the empty list,
lies in [0,100] whenever each score lies in [0,1], and is 45 on the
scenario-1 example of the spec. -/
theorem claim_C5_match_percentage :
    (∀ l : List SkillMatch, (∀ m ∈ l, 0 ≤ m.match_score ∧ m.match_score ≤ 1) →
      0 ≤ calculateMatchPercentage l ∧ calculateMatchPercentage l ≤ 100) ∧
    (∀ l : List SkillMatch, l ≠ [] →
      calculateMatchPercentage l =
        ((l.filter (·.user_has_skill)).map (·.match_score)).sum / (l.length : ℚ) * 100) ∧
    calculateMatchPercentage [] = 0 ∧
    calculateMatchPercentage scenario1Matches = 45 := by
  refine ⟨?_, calculateMatchPercentage_eq, rfl, ?_⟩
  case refine_2 =>
    rw [calculateMatchPercentage_eq scenario1Matches (by simp [scenario1Matches])]
    norm_num [scenario1Matches]
  intro l h
  by_cases hl : l = []
  · subst hl
    constructor <;> norm_num [calculateMatchPercentage]
  · have hlen0 : 0 < l.length := List.length_pos.2 hl
    have hlen : (0 : ℚ) < l.length := by exact_mod_cast hlen0
    have hS0 : 0 ≤ ((l.filter (·.user_has_skill)).map (·.match_score)).sum := by
      apply List.sum_nonneg
      intro x hx
      obtain ⟨m, hm, rfl⟩ := List.mem_map.1 hx
      exact (h m (List.mem_of_mem_filter hm)).1
    have hS1 : ((l.filter (·.user_has_skill)).map (·.match_score)).sum ≤ (l.length : ℚ) := by
      calc ((l.filter (·.user_has_skill)).map (·.match_score)).sum
          ≤ ((l.filter (·.user_has_skill)).map (fun _ => (1 : ℚ))).sum := by
            apply List.sum_le_sum
            intro m hm
            exact (h m (List.mem_of_mem_filter hm)).2
        _ = ((l.filter (·.user_has_skill)).length : ℚ) := by
            simp [List.map_const', List.sum_replicate, nsmul_eq_mul]
        _ ≤ (l.length : ℚ) := by exact_mod_cast List.length_filter_le _ _
    rw [calculateMatchPercentage_eq l hl]
    constructor
    · exact mul_nonneg (div_nonneg hS0 hlen.le) (by norm_num)
    · calc ((l.filter (·.user_has_skill)).map (·.match_score)).sum / (l.length : ℚ) * 100
          ≤ 1 * 100 := by
            apply mul_le_mul_of_nonneg_right ((div_le_one hlen).2 hS1)
            norm_num
        _ = 100 := one_mul 100

/-- Witness for C5 at the scenario-1 match list. -/
theorem claim_C5_match_percentage_witness :
    (0 ≤ calculateMatchPercentage scenario1Matches ∧
      calculateMatchPercentage scenario1Matches ≤ 100) ∧
    calculateMatchPercentage scenario1Matches =
      ((scenario1Matches.filter (·.user_has_skill)).map (·.match_score)).sum /
        (scenario1Matches.length : ℚ) * 100 :=
  ⟨claim_C5_match_percentage.1 scenario1Matches (by norm_num [scenario1Matches]),
    claim_C5_match_percentage.2.1 scenario1Matches (by simp [scenario1Matches])⟩

/-- The second skills-section loop only ever appends a subset of the
profile skills after the accumulated prefix. -/
theorem addRemainingSkills_structure (l : List String) :
    ∀ acc : List String, ∃ rem,
      addRemainingSkills acc l = acc ++ rem ∧ ∀ x ∈ rem, x ∈ l := by
  induction l with
  | nil => exact fun acc => ⟨[], by simp [addRemainingSkills]⟩
  | cons sk rest ih =>
    intro acc
    by_cases hc : acc.any (fun ps => strContainsSub (strToLower ps) (strToLower sk)) = true
    · obtain ⟨rem, heq, hsub⟩ := ih acc
      exact ⟨rem, by simp [addRemainingSkills, hc, heq],
        fun x hx => List.mem_cons_of_mem _ (hsub x hx)⟩
    · obtain ⟨rem, hrec, hsub⟩ := ih (acc ++ [sk])
      refine ⟨sk :: rem, ?_, ?_⟩
      · simp [addRemainingSkills, hc, hrec]
      · intro x hx
        rcases List.mem_cons.1 hx with rfl | hx
        · exact List.mem_cons_self _ _
        · exact List.mem_cons_of_mem _ (hsub x hx)

/-- C9 (amended): the skills section lists — in order and with duplicates
retained — the matched skills (user has them, score > 0.5) that overlap some
profile skill case-insensitively as a substring in either direction, followed
by remaining profile skills (a profile skill is skipped when it is a
case-insensitive substring of an already-listed skill), truncated to at most
15 entries. -/
theorem claim_C9_amended_skills_section (up : UserProfile) (sms : List SkillMatch) :
    (skillsSectionList up sms).length ≤ 15 ∧
    (∃ rem, (∀ x ∈ rem, x ∈ up.skills) ∧
      skillsSectionList up sms = (matchedOverlappingSkills up sms ++ rem).take 15) ∧
    createSkillsSection up sms =
      { section_name := "Technical Skills",
        content := joinComma (skillsSectionList up sms), priority := 2 } := by
  refine ⟨List.length_take_le _ _, ?_, rfl⟩
  obtain ⟨rem, heq, hsub⟩ :=
    addRemainingSkills_structure up.skills (matchedOverlappingSkills up sms)
  exact ⟨rem, hsub, by rw [skillsSectionList, prioritizedSkills, heq]⟩

/-- Counterexample to C9 as stated: two identical high-scoring matches for a
profile holding that same skill produce a skills section listing `Python`
twice — duplicates among matched skills are not removed (case-insensitively or
otherwise). -/
theorem claim_C9_counterexample_duplicates_kept :
    skillsSectionList sampleProfile dupMatches = ["Python", "Python"] ∧
    ¬ ((skillsSectionList sampleProfile dupMatches).map strToLower).Nodup := by
  have h1 : matchedSkills dupMatches = ["Python", "Python"] := by
    unfold matchedSkills dupMatches
    norm_num [List.filter]
  have h2 : skillsSectionList sampleProfile dupMatches = ["Python", "Python"] := by
    rw [skillsSectionList, prioritizedSkills, matchedOverlappingSkills, h1]
    decide
  rw [h2]
  exact ⟨rfl, by decide⟩

/-- Rendered digits are digit characters. -/
theorem dch_isDigit {n : Nat} (h : n < 10) : (dch n).isDigit = true := by
  interval_cases n <;> decide

/-- Rendered digits read back to their value. -/
theorem cv_dch {n : Nat} (h : n < 10) : cv (dch n) = n := by
  interval_cases n <;> decide

/-- No month has more than 31 days. -/
theorem daysInMonth_le_31 (y m : Nat) : daysInMonth y m ≤ 31 := by
  unfold daysInMonth
  split
  · split <;> omega
  · split <;> omega

/-- The format matcher accepts the canonical zero-padded rendering. -/
theorem parseYMDchars_fmt (y m d : Nat) (hy : y ≤ 9999) (hm : m < 100) (hd : d < 100) :
    parseYMDchars (render4 y ++ '-' :: (render2 m ++ '-' :: render2 d)) =
      some (y, m, d) := by
  have h1 : y / 1000 < 10 := by omega
  have h2 : y / 100 % 10 < 10 := by omega
  have h3 : y / 10 % 10 < 10 := by omega
  have h4 : y % 10 < 10 := by omega
  have hm1 : m / 10 < 10 := by omega
  have hm2 : m % 10 < 10 := by omega
  have hd1 : d / 10 < 10 := by omega
  have hd2 : d % 10 < 10 := by omega
  simp only [render4, render2, List.cons_append, List.nil_append]
  simp [parseYMDchars, parseMonthPart, parseDayPart,
    dch_isDigit h1, dch_isDigit h2, dch_isDigit h3, dch_isDigit h4,
    dch_isDigit hm1, dch_isDigit hm2, dch_isDigit hd1, dch_isDigit hd2,
    cv_dch h1, cv_dch h2, cv_dch h3, cv_dch h4,
    cv_dch hm1, cv_dch hm2, cv_dch hd1, cv_dch hd2]
  omega

/-- The `strptime` model accepts the canonical rendering of a valid date. -/
theorem strptimeYMD_fmt (y m d : Nat) (hv : validDate y m d = true) :
    strptimeYMD (fmtYMD y m d) = some ⟨y, m, d⟩ := by
  have h := hv
  simp only [validDate, Bool.and_eq_true, decide_eq_true_eq] at h
  obtain ⟨⟨⟨⟨⟨hy1, hy⟩, hm1⟩, hm⟩, hd1⟩, hd⟩ := h
  have hd31 := daysInMonth_le_31 y m
  unfold strptimeYMD fmtYMD
  rw [show (String.mk (render4 y ++ '-' :: (render2 m ++ '-' :: render2 d))).data =
      render4 y ++ '-' :: (render2 m ++ '-' :: render2 d) from rfl]
  rw [parseYMDchars_fmt y m d hy (by omega) (by omega)]
  simp [hv]

/-- A bare four-digit string fails the full `%Y-%m-%d` parse. -/
theorem strptimeYMD_render4 (y : Nat) (t : String) (ht : t.data = render4 y) :
    strptimeYMD t = none := by
  unfold strptimeYMD
  rw [ht]
  rfl

/-- Appending `"-01-01"` to a four-digit year parses to January 1st. -/
theorem strptimeYMD_render4_append (y : Nat) (hy1 : 1 ≤ y) (hy : y ≤ 9999)
    (t : String) (ht : t.data = render4 y) :
    strptimeYMD (t ++ "-01-01") = some ⟨y, 1, 1⟩ := by
  unfold strptimeYMD
  rw [String.data_append, ht,
    show (("-01-01" : String).data : List Char) =
      '-' :: (render2 1 ++ '-' :: render2 1) from by decide,
    parseYMDchars_fmt y 1 1 hy (by omega) (by omega)]
  have hvd : validDate y 1 1 = true := by
    simp [validDate, daysInMonth]
    omega
  simp [hvd]

/-- A falsy input yields null. -/
theorem parseDate_falsy (v : PyVal) (h : pyTruthy v = false) : parseDate v = none := by
  simp [parseDate, h]

/-- A string in canonical `YYYY-MM-DD` form with a valid calendar date parses
to that date. -/
theorem parseDate_full (y m d : Nat) (hv : validDate y m d = true) :
    parseDate (.pyStr (fmtYMD y m d)) = some ⟨y, m, d⟩ := by
  have htr : pyTruthy (.pyStr (fmtYMD y m d)) = true := rfl
  simp [parseDate, htr, strptimeYMD_fmt y m d hv]

/-- Any truthy value whose string rendering is a bare four-digit year —
whether the string itself or, via the f-string fallback, a non-string such as
an integer — parses to January 1st of that year. -/
theorem parseDate_bareYear (v : PyVal) (y : Nat) (hy1 : 1 ≤ y) (hy : y ≤ 9999)
    (htr : pyTruthy v = true) (hren : (pyRender v).data = render4 y) :
    parseDate v = some ⟨y, 1, 1⟩ := by
  cases v with
  | pyNone => cases htr
  | pyStr s =>
    have hfirst : strptimeYMD s = none := strptimeYMD_render4 y s hren
    simp [parseDate, htr, hfirst, strptimeYMD_render4_append y hy1 hy s hren]
  | pyInt n => simp [parseDate, htr, strptimeYMD_render4_append y hy1 hy _ hren]
  | pyBool b => simp [parseDate, htr, strptimeYMD_render4_append y hy1 hy _ hren]

/-- When both parse attempts fail, the result is null (never an exception). -/
theorem parseDate_fallthrough (v : PyVal) (htr : pyTruthy v = true)
    (hstr : ∀ s, v = .pyStr s → strptimeYMD s = none)
    (hfb : strptimeYMD (pyRender v ++ "-01-01") = none) : parseDate v = none := by
  cases v with
  | pyNone => cases htr
  | pyStr s =>
    simp only [pyRender] at hfb
    simp [parseDate, htr, hstr s rfl, hfb]
  | pyInt n => simp [parseDate, htr, hfb]
  | pyBool b => simp [parseDate, htr, hfb]

/-- C6 (amended): the date parser is total; a string in full `YYYY-MM-DD`
form with a valid calendar date parses to that date; any truthy input whose
string rendering is a bare four-digit year — the string `"YYYY"` or equally a
non-string such as the integer `YYYY` via the f-string fallback — parses to
`YYYY-01-01`; a falsy input, or one for which both parse attempts fail,
yields null. -/
theorem claim_C6_amended_date_parsing :
    (∀ v, pyTruthy v = false → parseDate v = none) ∧
    (∀ y m d, validDate y m d = true →
      parseDate (.pyStr (fmtYMD y m d)) = some ⟨y, m, d⟩) ∧
    (∀ v y, 1 ≤ y → y ≤ 9999 → pyTruthy v = true →
      (pyRender v).data = render4 y → parseDate v = some ⟨y, 1, 1⟩) ∧
    (∀ v, pyTruthy v = true → (∀ s, v = .pyStr s → strptimeYMD s = none) →
      strptimeYMD (pyRender v ++ "-01-01") = none → parseDate v = none) :=
  ⟨parseDate_falsy, parseDate_full,
    fun v y h1 h2 h3 h4 => parseDate_bareYear v y h1 h2 h3 h4,
    parseDate_fallthrough⟩

/-- Counterexample to C6 as stated: the non-string input `2020` (an integer)
does not yield null — the f-string fallback turns it into `"2020-01-01"`,
which parses. -/
theorem claim_C6_counterexample_int_year :
    parseDate (.pyInt 2020) = some ⟨2020, 1, 1⟩ ∧ parseDate (.pyInt 2020) ≠ none := by
  have h : parseDate (.pyInt 2020) = some ⟨2020, 1, 1⟩ := by decide
  exact ⟨h, by rw [h]; exact fun hc => Option.noConfusion hc⟩

/-- Witness for amended C6 on concrete inputs of each kind. -/
theorem claim_C6_amended_date_parsing_witness :
    parseDate .pyNone = none ∧
    parseDate (.pyStr (fmtYMD 2023 7 15)) = some ⟨2023, 7, 15⟩ ∧
    parseDate (.pyStr "2020") = some ⟨2020, 1, 1⟩ ∧
    parseDate (.pyBool true) = none :=
  ⟨claim_C6_amended_date_parsing.1 .pyNone rfl,
    claim_C6_amended_date_parsing.2.1 2023 7 15 (by decide),
    claim_C6_amended_date_parsing.2.2.1 (.pyStr "2020") 2020 (by omega) (by omega)
      rfl (by decide),
    claim_C6_amended_date_parsing.2.2.2 (.pyBool true) rfl
      (fun _ h => PyVal.noConfusion h) (by decide)⟩

end ResumeGen
